import Mathlib

/-!
Shallow embedding of the virtual-CPU simulator (src/src/main.rs) and proofs
about its fetch/decode/execute core: the register file, the symbol-addressed
memory sections, the Mov dispatch over operand-kind pairs, and the run loop.

Rust HashMap values are modelled as association lists (insertion order fixed,
lookup by key); u8/u16/u32 lane values are modelled as Nat with explicit
truncation (mod 256 and friends) exactly where the source casts or splits
into little-endian bytes.  A Rust panic (unwrap on None, index out of
bounds, explicit panic calls) is modelled as an ExecError value.
-/

namespace VCpu

/-- Flags register, from struct Flags in the source. -/
structure Flags where
  carry : Bool
  zero : Bool
  interrupt : Bool
  sign : Bool
  overflow : Bool
  parity : Bool
deriving DecidableEq, Repr

/-- General-purpose registers, from enum Register: the 16-bit forms carry two
byte lanes, the 32-bit forms four. -/
inductive Register where
  | AX (a b : Nat)
  | BX (a b : Nat)
  | CX (a b : Nat)
  | DX (a b : Nat)
  | EAX (a b c d : Nat)
  | EBX (a b c d : Nat)
  | ECX (a b c d : Nat)
  | EDX (a b c d : Nat)
deriving DecidableEq, Repr

/-- impl PartialEq for Register: two values compare equal exactly when they
are the same variant; the lane bytes are ignored. -/
def regEq : Register → Register → Bool
  | Register.AX _ _, Register.AX _ _ => true
  | Register.BX _ _, Register.BX _ _ => true
  | Register.CX _ _, Register.CX _ _ => true
  | Register.DX _ _, Register.DX _ _ => true
  | Register.EAX _ _ _ _, Register.EAX _ _ _ _ => true
  | Register.EBX _ _ _ _, Register.EBX _ _ _ _ => true
  | Register.ECX _ _ _ _, Register.ECX _ _ _ _ => true
  | Register.EDX _ _ _ _, Register.EDX _ _ _ _ => true
  | _, _ => false

/-- Instruction set, from enum IS. -/
inductive IS where
  | Mov | Add | Sub | Mul
  | Div | And | Or | Xor
  | Not | Cmp | Jmp | Je
  | Jne | Jg | Jge | Jl
  | Jle | Call | Ret | Push
  | Pop
deriving DecidableEq, Repr

/-- Tagged data values, from enum Data. -/
inductive Data where
  | Byte (v : Nat)
  | Word (v : Nat)
  | Dword (v : Nat)
deriving DecidableEq, Repr

/-- Data::get_value. -/
def Data.get_value : Data → Nat
  | Data.Byte v => v
  | Data.Word v => v
  | Data.Dword v => v

/-- Operands, from enum Operand. -/
inductive Operand where
  | Register (r : Register)
  | Memory (address : String)
  | Immediate (d : Data)
deriving DecidableEq, Repr

/-- Instructions, from struct Instruction. -/
structure Instruction where
  opcode : IS
  operands : List Operand
deriving DecidableEq, Repr

/-- Programs, from struct Program. -/
structure Program where
  data_section : List (String × Data)
  bss_section : List (String × Data)
  text_section : List Instruction
deriving DecidableEq, Repr

abbrev RegisterFile := List (String × Register)

/-- CPU state, from struct CPU. -/
structure CPU where
  registers : RegisterFile
  memory : Program
  stack : List Nat
  program_counter : Nat
  flags : Flags
deriving DecidableEq, Repr

/-- HashMap::get modelled on an association list. -/
def mapGet {α : Type} : List (String × α) → String → Option α
  | [], _ => none
  | (k', v) :: rest, k => if k = k' then some v else mapGet rest k

/-- HashMap::insert modelled on an association list: replaces in place when
the key is present (returning the previous value, as Rust does), otherwise
appends. -/
def mapInsert {α : Type} : List (String × α) → String → α → Option α × List (String × α)
  | [], k, v => (none, [(k, v)])
  | (k', v') :: rest, k, v =>
    if k = k' then (some v', (k, v) :: rest)
    else
      let r := mapInsert rest k v
      (r.1, (k', v') :: r.2)

/-- HashMap::contains_key. -/
def mapContains {α : Type} (m : List (String × α)) (k : String) : Bool :=
  (mapGet m k).isSome

/-- u16::to_le_bytes: the two little-endian byte lanes of a 16-bit value. -/
def toLeBytes16 (v : Nat) : Nat × Nat := (v % 256, v / 256 % 256)

/-- u32::to_le_bytes: the four little-endian byte lanes of a 32-bit value. -/
def toLeBytes32 (v : Nat) : Nat × Nat × Nat × Nat :=
  (v % 256, v / 256 % 256, v / 65536 % 256, v / 16777216 % 256)

/-- The distinct ways the Rust code can panic during execution. -/
inductive ExecError where
  | undeclaredAccess
  | uninitAccess
  | unwrapNone
  | indexOutOfBounds
deriving DecidableEq, Repr

def nAX : String := "AX"
def nBX : String := "BX"
def nCX : String := "CX"
def nDX : String := "DX"
def nEAX : String := "EAX"
def nEBX : String := "EBX"
def nECX : String := "ECX"
def nEDX : String := "EDX"

/-- The body of CPU::mov, acting on the pieces of CPU state that mov reads
and writes: the register file, the data section (which mov mutates) and the
bss section (which mov only consults for contains_key).  Arguments follow
the Rust signature mov(&mut self, source, destination); the outer match is
on (destination, source) as in the source.  Every arm, including the
copy-paste slips in the register-to-register cases (EAX←BX writing ECX,
EBX←BX writing EDX, ECX←CX matching EDX against the ECX slot) and the
read-back direction of the (Memory, Register) arm, is transcribed as
written.  Panics become ExecError values; an if-let whose pattern fails
falls through with no effect, as in Rust. -/
def movCore (registers : RegisterFile) (data_section bss_section : List (String × Data))
    (source destination : Operand) : Except ExecError (RegisterFile × List (String × Data)) :=
  match destination, source with
  | Operand.Register dest_reg, Operand.Register src_reg =>
    match dest_reg, src_reg with
    | Register.AX _ _, Register.BX _ _ =>
      let p := mapInsert registers nBX (Register.BX 0 0)
      match p.1 with
      | none => Except.error ExecError.unwrapNone
      | some bx => Except.ok ((mapInsert p.2 nAX bx).2, data_section)
    | Register.AX _ _, Register.CX _ _ =>
      let p := mapInsert registers nCX (Register.CX 0 0)
      match p.1 with
      | none => Except.error ExecError.unwrapNone
      | some cx => Except.ok ((mapInsert p.2 nAX cx).2, data_section)
    | Register.AX _ _, Register.DX _ _ =>
      let p := mapInsert registers nDX (Register.DX 0 0)
      match p.1 with
      | none => Except.error ExecError.unwrapNone
      | some dx => Except.ok ((mapInsert p.2 nAX dx).2, data_section)
    | Register.AX _ _, Register.EAX _ _ _ _ =>
      match mapGet registers nEAX with
      | none => Except.error ExecError.unwrapNone
      | some (Register.EAX a b c d) =>
        Except.ok ((mapInsert (mapInsert registers nEAX (Register.EAX 0 0 c d)).2
          nAX (Register.AX a b)).2, data_section)
      | some _ => Except.ok (registers, data_section)
    | Register.AX _ _, Register.EBX _ _ _ _ =>
      match mapGet registers nEBX with
      | none => Except.error ExecError.unwrapNone
      | some (Register.EBX a b c d) =>
        Except.ok ((mapInsert (mapInsert registers nEBX (Register.EBX 0 0 c d)).2
          nAX (Register.AX a b)).2, data_section)
      | some _ => Except.ok (registers, data_section)
    | Register.AX _ _, Register.ECX _ _ _ _ =>
      match mapGet registers nECX with
      | none => Except.error ExecError.unwrapNone
      | some (Register.ECX a b c d) =>
        Except.ok ((mapInsert (mapInsert registers nECX (Register.ECX 0 0 c d)).2
          nAX (Register.AX a b)).2, data_section)
      | some _ => Except.ok (registers, data_section)
    | Register.AX _ _, Register.EDX _ _ _ _ =>
      match mapGet registers nEDX with
      | none => Except.error ExecError.unwrapNone
      | some (Register.EDX a b c d) =>
        Except.ok ((mapInsert (mapInsert registers nEDX (Register.EDX 0 0 c d)).2
          nAX (Register.AX a b)).2, data_section)
      | some _ => Except.ok (registers, data_section)
    | Register.BX _ _, Register.AX _ _ =>
      let p := mapInsert registers nAX (Register.AX 0 0)
      match p.1 with
      | none => Except.error ExecError.unwrapNone
      | some ax => Except.ok ((mapInsert p.2 nBX ax).2, data_section)
    | Register.BX _ _, Register.CX _ _ =>
      let p := mapInsert registers nCX (Register.CX 0 0)
      match p.1 with
      | none => Except.error ExecError.unwrapNone
      | some cx => Except.ok ((mapInsert p.2 nBX cx).2, data_section)
    | Register.BX _ _, Register.DX _ _ =>
      let p := mapInsert registers nDX (Register.DX 0 0)
      match p.1 with
      | none => Except.error ExecError.unwrapNone
      | some dx => Except.ok ((mapInsert p.2 nBX dx).2, data_section)
    | Register.BX _ _, Register.EAX _ _ _ _ =>
      match mapGet registers nEAX with
      | none => Except.error ExecError.unwrapNone
      | some (Register.EAX a b c d) =>
        Except.ok ((mapInsert (mapInsert registers nEAX (Register.EAX 0 0 c d)).2
          nBX (Register.BX a b)).2, data_section)
      | some _ => Except.ok (registers, data_section)
    | Register.BX _ _, Register.EBX _ _ _ _ =>
      match mapGet registers nEBX with
      | none => Except.error ExecError.unwrapNone
      | some (Register.EBX a b c d) =>
        Except.ok ((mapInsert (mapInsert registers nEBX (Register.EBX 0 0 c d)).2
          nBX (Register.BX a b)).2, data_section)
      | some _ => Except.ok (registers, data_section)
    | Register.BX _ _, Register.ECX _ _ _ _ =>
      match mapGet registers nECX with
      | none => Except.error ExecError.unwrapNone
      | some (Register.ECX a b c d) =>
        Except.ok ((mapInsert (mapInsert registers nECX (Register.ECX 0 0 c d)).2
          nBX (Register.BX a b)).2, data_section)
      | some _ => Except.ok (registers, data_section)
    | Register.BX _ _, Register.EDX _ _ _ _ =>
      match mapGet registers nEDX with
      | none => Except.error ExecError.unwrapNone
      | some (Register.EDX a b c d) =>
        Except.ok ((mapInsert (mapInsert registers nEDX (Register.EDX 0 0 c d)).2
          nBX (Register.BX a b)).2, data_section)
      | some _ => Except.ok (registers, data_section)
    | Register.CX _ _, Register.AX _ _ =>
      let p := mapInsert registers nAX (Register.AX 0 0)
      match p.1 with
      | none => Except.error ExecError.unwrapNone
      | some ax => Except.ok ((mapInsert p.2 nCX ax).2, data_section)
    | Register.CX _ _, Register.BX _ _ =>
      let p := mapInsert registers nBX (Register.BX 0 0)
      match p.1 with
      | none => Except.error ExecError.unwrapNone
      | some bx => Except.ok ((mapInsert p.2 nCX bx).2, data_section)
    | Register.CX _ _, Register.DX _ _ =>
      let p := mapInsert registers nDX (Register.DX 0 0)
      match p.1 with
      | none => Except.error ExecError.unwrapNone
      | some dx => Except.ok ((mapInsert p.2 nCX dx).2, data_section)
    | Register.CX _ _, Register.EAX _ _ _ _ =>
      match mapGet registers nEAX with
      | none => Except.error ExecError.unwrapNone
      | some (Register.EAX a b c d) =>
        Except.ok ((mapInsert (mapInsert registers nEAX (Register.EAX 0 0 c d)).2
          nCX (Register.CX a b)).2, data_section)
      | some _ => Except.ok (registers, data_section)
    | Register.CX _ _, Register.EBX _ _ _ _ =>
      match mapGet registers nEBX with
      | none => Except.error ExecError.unwrapNone
      | some (Register.EBX a b c d) =>
        Except.ok ((mapInsert (mapInsert registers nEBX (Register.EBX 0 0 c d)).2
          nCX (Register.CX a b)).2, data_section)
      | some _ => Except.ok (registers, data_section)
    | Register.CX _ _, Register.ECX _ _ _ _ =>
      match mapGet registers nECX with
      | none => Except.error ExecError.unwrapNone
      | some (Register.ECX a b c d) =>
        Except.ok ((mapInsert (mapInsert registers nECX (Register.ECX 0 0 c d)).2
          nCX (Register.CX a b)).2, data_section)
      | some _ => Except.ok (registers, data_section)
    | Register.CX _ _, Register.EDX _ _ _ _ =>
      match mapGet registers nEDX with
      | none => Except.error ExecError.unwrapNone
      | some (Register.EDX a b c d) =>
        Except.ok ((mapInsert (mapInsert registers nEDX (Register.EDX 0 0 c d)).2
          nCX (Register.CX a b)).2, data_section)
      | some _ => Except.ok (registers, data_section)
    | Register.DX _ _, Register.AX _ _ =>
      let p := mapInsert registers nAX (Register.AX 0 0)
      match p.1 with
      | none => Except.error ExecError.unwrapNone
      | some ax => Except.ok ((mapInsert p.2 nDX ax).2, data_section)
    | Register.DX _ _, Register.BX _ _ =>
      let p := mapInsert registers nBX (Register.BX 0 0)
      match p.1 with
      | none => Except.error ExecError.unwrapNone
      | some bx => Except.ok ((mapInsert p.2 nDX bx).2, data_section)
    | Register.DX _ _, Register.CX _ _ =>
      let p := mapInsert registers nCX (Register.CX 0 0)
      match p.1 with
      | none => Except.error ExecError.unwrapNone
      | some cx => Except.ok ((mapInsert p.2 nDX cx).2, data_section)
    | Register.DX _ _, Register.EAX _ _ _ _ =>
      match mapGet registers nEAX with
      | none => Except.error ExecError.unwrapNone
      | some (Register.EAX a b c d) =>
        Except.ok ((mapInsert (mapInsert registers nEAX (Register.EAX 0 0 c d)).2
          nDX (Register.DX a b)).2, data_section)
      | some _ => Except.ok (registers, data_section)
    | Register.DX _ _, Register.EBX _ _ _ _ =>
      match mapGet registers nEBX with
      | none => Except.error ExecError.unwrapNone
      | some (Register.EBX a b c d) =>
        Except.ok ((mapInsert (mapInsert registers nEBX (Register.EBX 0 0 c d)).2
          nDX (Register.DX a b)).2, data_section)
      | some _ => Except.ok (registers, data_section)
    | Register.DX _ _, Register.ECX _ _ _ _ =>
      match mapGet registers nECX with
      | none => Except.error ExecError.unwrapNone
      | some (Register.ECX a b c d) =>
        Except.ok ((mapInsert (mapInsert registers nECX (Register.ECX 0 0 c d)).2
          nDX (Register.DX a b)).2, data_section)
      | some _ => Except.ok (registers, data_section)
    | Register.DX _ _, Register.EDX _ _ _ _ =>
      match mapGet registers nEDX with
      | none => Except.error ExecError.unwrapNone
      | some (Register.EDX a b c d) =>
        Except.ok ((mapInsert (mapInsert registers nEDX (Register.EDX 0 0 c d)).2
          nDX (Register.DX a b)).2, data_section)
      | some _ => Except.ok (registers, data_section)
    | Register.EAX _ _ _ _, Register.AX _ _ =>
      let p := mapInsert registers nAX (Register.AX 0 0)
      match p.1 with
      | none => Except.error ExecError.unwrapNone
      | some (Register.AX a b) =>
        match mapGet p.2 nEAX with
        | none => Except.error ExecError.unwrapNone
        | some (Register.EAX _ _ axl axh) =>
          Except.ok ((mapInsert p.2 nEAX (Register.EAX a b axl axh)).2, data_section)
        | some _ => Except.ok (p.2, data_section)
      | some _ => Except.ok (p.2, data_section)
    | Register.EAX _ _ _ _, Register.BX _ _ =>
      let p := mapInsert registers nBX (Register.BX 0 0)
      match p.1 with
      | none => Except.error ExecError.unwrapNone
      | some (Register.BX a b) =>
        match mapGet p.2 nECX with
        | none => Except.error ExecError.unwrapNone
        | some (Register.ECX _ _ axl axh) =>
          Except.ok ((mapInsert p.2 nECX (Register.ECX a b axl axh)).2, data_section)
        | some _ => Except.ok (p.2, data_section)
      | some _ => Except.ok (p.2, data_section)
    | Register.EAX _ _ _ _, Register.CX _ _ =>
      let p := mapInsert registers nCX (Register.CX 0 0)
      match p.1 with
      | none => Except.error ExecError.unwrapNone
      | some (Register.CX a b) =>
        match mapGet p.2 nEAX with
        | none => Except.error ExecError.unwrapNone
        | some (Register.EAX _ _ axl axh) =>
          Except.ok ((mapInsert p.2 nEAX (Register.EAX a b axl axh)).2, data_section)
        | some _ => Except.ok (p.2, data_section)
      | some _ => Except.ok (p.2, data_section)
    | Register.EAX _ _ _ _, Register.DX _ _ =>
      let p := mapInsert registers nDX (Register.DX 0 0)
      match p.1 with
      | none => Except.error ExecError.unwrapNone
      | some (Register.DX a b) =>
        match mapGet p.2 nEAX with
        | none => Except.error ExecError.unwrapNone
        | some (Register.EAX _ _ axl axh) =>
          Except.ok ((mapInsert p.2 nEAX (Register.EAX a b axl axh)).2, data_section)
        | some _ => Except.ok (p.2, data_section)
      | some _ => Except.ok (p.2, data_section)
    | Register.EAX _ _ _ _, Register.EBX _ _ _ _ =>
      let p := mapInsert registers nEBX (Register.EBX 0 0 0 0)
      match p.1 with
      | none => Except.error ExecError.unwrapNone
      | some (Register.EBX a b c d) =>
        Except.ok ((mapInsert p.2 nEAX (Register.EAX a b c d)).2, data_section)
      | some _ => Except.ok (p.2, data_section)
    | Register.EAX _ _ _ _, Register.ECX _ _ _ _ =>
      let p := mapInsert registers nECX (Register.ECX 0 0 0 0)
      match p.1 with
      | none => Except.error ExecError.unwrapNone
      | some (Register.ECX a b c d) =>
        Except.ok ((mapInsert p.2 nEAX (Register.EAX a b c d)).2, data_section)
      | some _ => Except.ok (p.2, data_section)
    | Register.EAX _ _ _ _, Register.EDX _ _ _ _ =>
      let p := mapInsert registers nEDX (Register.EDX 0 0 0 0)
      match p.1 with
      | none => Except.error ExecError.unwrapNone
      | some (Register.EDX a b c d) =>
        Except.ok ((mapInsert p.2 nEAX (Register.EAX a b c d)).2, data_section)
      | some _ => Except.ok (p.2, data_section)
    | Register.EBX _ _ _ _, Register.AX _ _ =>
      let p := mapInsert registers nAX (Register.AX 0 0)
      match p.1 with
      | none => Except.error ExecError.unwrapNone
      | some (Register.AX a b) =>
        match mapGet p.2 nEBX with
        | none => Except.error ExecError.unwrapNone
        | some (Register.EBX _ _ bxl bxh) =>
          Except.ok ((mapInsert p.2 nEBX (Register.EBX a b bxl bxh)).2, data_section)
        | some _ => Except.ok (p.2, data_section)
      | some _ => Except.ok (p.2, data_section)
    | Register.EBX _ _ _ _, Register.BX _ _ =>
      let p := mapInsert registers nBX (Register.BX 0 0)
      match p.1 with
      | none => Except.error ExecError.unwrapNone
      | some (Register.BX a b) =>
        match mapGet p.2 nEDX with
        | none => Except.error ExecError.unwrapNone
        | some (Register.EDX _ _ dxl dxh) =>
          Except.ok ((mapInsert p.2 nEDX (Register.EDX a b dxl dxh)).2, data_section)
        | some _ => Except.ok (p.2, data_section)
      | some _ => Except.ok (p.2, data_section)
    | Register.EBX _ _ _ _, Register.CX _ _ =>
      let p := mapInsert registers nCX (Register.CX 0 0)
      match p.1 with
      | none => Except.error ExecError.unwrapNone
      | some (Register.CX a b) =>
        match mapGet p.2 nEBX with
        | none => Except.error ExecError.unwrapNone
        | some (Register.EBX _ _ bxl bxh) =>
          Except.ok ((mapInsert p.2 nEBX (Register.EBX a b bxl bxh)).2, data_section)
        | some _ => Except.ok (p.2, data_section)
      | some _ => Except.ok (p.2, data_section)
    | Register.EBX _ _ _ _, Register.DX _ _ =>
      let p := mapInsert registers nDX (Register.DX 0 0)
      match p.1 with
      | none => Except.error ExecError.unwrapNone
      | some (Register.DX a b) =>
        match mapGet p.2 nEBX with
        | none => Except.error ExecError.unwrapNone
        | some (Register.EBX _ _ bxl bxh) =>
          Except.ok ((mapInsert p.2 nEBX (Register.EBX a b bxl bxh)).2, data_section)
        | some _ => Except.ok (p.2, data_section)
      | some _ => Except.ok (p.2, data_section)
    | Register.EBX _ _ _ _, Register.EAX _ _ _ _ =>
      let p := mapInsert registers nEAX (Register.EAX 0 0 0 0)
      match p.1 with
      | none => Except.error ExecError.unwrapNone
      | some (Register.EAX a b c d) =>
        Except.ok ((mapInsert p.2 nEBX (Register.EBX a b c d)).2, data_section)
      | some _ => Except.ok (p.2, data_section)
    | Register.EBX _ _ _ _, Register.ECX _ _ _ _ =>
      let p := mapInsert registers nECX (Register.ECX 0 0 0 0)
      match p.1 with
      | none => Except.error ExecError.unwrapNone
      | some (Register.ECX a b c d) =>
        Except.ok ((mapInsert p.2 nEBX (Register.EBX a b c d)).2, data_section)
      | some _ => Except.ok (p.2, data_section)
    | Register.EBX _ _ _ _, Register.EDX _ _ _ _ =>
      let p := mapInsert registers nEDX (Register.EDX 0 0 0 0)
      match p.1 with
      | none => Except.error ExecError.unwrapNone
      | some (Register.EDX a b c d) =>
        Except.ok ((mapInsert p.2 nEBX (Register.EBX a b c d)).2, data_section)
      | some _ => Except.ok (p.2, data_section)
    | Register.ECX _ _ _ _, Register.AX _ _ =>
      let p := mapInsert registers nAX (Register.AX 0 0)
      match p.1 with
      | none => Except.error ExecError.unwrapNone
      | some (Register.AX a b) =>
        match mapGet p.2 nECX with
        | none => Except.error ExecError.unwrapNone
        | some (Register.ECX _ _ cxl cxh) =>
          Except.ok ((mapInsert p.2 nECX (Register.ECX a b cxl cxh)).2, data_section)
        | some _ => Except.ok (p.2, data_section)
      | some _ => Except.ok (p.2, data_section)
    | Register.ECX _ _ _ _, Register.BX _ _ =>
      let p := mapInsert registers nBX (Register.BX 0 0)
      match p.1 with
      | none => Except.error ExecError.unwrapNone
      | some (Register.BX a b) =>
        match mapGet p.2 nECX with
        | none => Except.error ExecError.unwrapNone
        | some (Register.ECX _ _ cxl cxh) =>
          Except.ok ((mapInsert p.2 nECX (Register.ECX a b cxl cxh)).2, data_section)
        | some _ => Except.ok (p.2, data_section)
      | some _ => Except.ok (p.2, data_section)
    | Register.ECX _ _ _ _, Register.CX _ _ =>
      let p := mapInsert registers nCX (Register.CX 0 0)
      match p.1 with
      | none => Except.error ExecError.unwrapNone
      | some (Register.CX a b) =>
        match mapGet p.2 nECX with
        | none => Except.error ExecError.unwrapNone
        | some (Register.EDX _ _ cxl cxh) =>
          Except.ok ((mapInsert p.2 nEDX (Register.ECX a b cxl cxh)).2, data_section)
        | some _ => Except.ok (p.2, data_section)
      | some _ => Except.ok (p.2, data_section)
    | Register.ECX _ _ _ _, Register.DX _ _ =>
      let p := mapInsert registers nDX (Register.DX 0 0)
      match p.1 with
      | none => Except.error ExecError.unwrapNone
      | some (Register.DX a b) =>
        match mapGet p.2 nECX with
        | none => Except.error ExecError.unwrapNone
        | some (Register.ECX _ _ cxl cxh) =>
          Except.ok ((mapInsert p.2 nECX (Register.ECX a b cxl cxh)).2, data_section)
        | some _ => Except.ok (p.2, data_section)
      | some _ => Except.ok (p.2, data_section)
    | Register.ECX _ _ _ _, Register.EAX _ _ _ _ =>
      let p := mapInsert registers nEAX (Register.EAX 0 0 0 0)
      match p.1 with
      | none => Except.error ExecError.unwrapNone
      | some (Register.EAX a b c d) =>
        Except.ok ((mapInsert p.2 nECX (Register.ECX a b c d)).2, data_section)
      | some _ => Except.ok (p.2, data_section)
    | Register.ECX _ _ _ _, Register.EBX _ _ _ _ =>
      let p := mapInsert registers nEBX (Register.EBX 0 0 0 0)
      match p.1 with
      | none => Except.error ExecError.unwrapNone
      | some (Register.EBX a b c d) =>
        Except.ok ((mapInsert p.2 nECX (Register.ECX a b c d)).2, data_section)
      | some _ => Except.ok (p.2, data_section)
    | Register.ECX _ _ _ _, Register.EDX _ _ _ _ =>
      let p := mapInsert registers nEDX (Register.EDX 0 0 0 0)
      match p.1 with
      | none => Except.error ExecError.unwrapNone
      | some (Register.EDX a b c d) =>
        Except.ok ((mapInsert p.2 nECX (Register.ECX a b c d)).2, data_section)
      | some _ => Except.ok (p.2, data_section)
    | Register.EDX _ _ _ _, Register.AX _ _ =>
      let p := mapInsert registers nAX (Register.AX 0 0)
      match p.1 with
      | none => Except.error ExecError.unwrapNone
      | some (Register.AX a b) =>
        match mapGet p.2 nEDX with
        | none => Except.error ExecError.unwrapNone
        | some (Register.EDX _ _ dxl dxh) =>
          Except.ok ((mapInsert p.2 nEDX (Register.EDX a b dxl dxh)).2, data_section)
        | some _ => Except.ok (p.2, data_section)
      | some _ => Except.ok (p.2, data_section)
    | Register.EDX _ _ _ _, Register.BX _ _ =>
      let p := mapInsert registers nBX (Register.BX 0 0)
      match p.1 with
      | none => Except.error ExecError.unwrapNone
      | some (Register.BX a b) =>
        match mapGet p.2 nEDX with
        | none => Except.error ExecError.unwrapNone
        | some (Register.EDX _ _ dxl dxh) =>
          Except.ok ((mapInsert p.2 nEDX (Register.EDX a b dxl dxh)).2, data_section)
        | some _ => Except.ok (p.2, data_section)
      | some _ => Except.ok (p.2, data_section)
    | Register.EDX _ _ _ _, Register.CX _ _ =>
      let p := mapInsert registers nCX (Register.CX 0 0)
      match p.1 with
      | none => Except.error ExecError.unwrapNone
      | some (Register.CX a b) =>
        match mapGet p.2 nEDX with
        | none => Except.error ExecError.unwrapNone
        | some (Register.EDX _ _ dxl dxh) =>
          Except.ok ((mapInsert p.2 nEDX (Register.EDX a b dxl dxh)).2, data_section)
        | some _ => Except.ok (p.2, data_section)
      | some _ => Except.ok (p.2, data_section)
    | Register.EDX _ _ _ _, Register.DX _ _ =>
      let p := mapInsert registers nDX (Register.DX 0 0)
      match p.1 with
      | none => Except.error ExecError.unwrapNone
      | some (Register.DX a b) =>
        match mapGet p.2 nEDX with
        | none => Except.error ExecError.unwrapNone
        | some (Register.EDX _ _ dxl dxh) =>
          Except.ok ((mapInsert p.2 nEDX (Register.EDX a b dxl dxh)).2, data_section)
        | some _ => Except.ok (p.2, data_section)
      | some _ => Except.ok (p.2, data_section)
    | Register.EDX _ _ _ _, Register.EAX _ _ _ _ =>
      let p := mapInsert registers nEAX (Register.EAX 0 0 0 0)
      match p.1 with
      | none => Except.error ExecError.unwrapNone
      | some (Register.EAX a b c d) =>
        Except.ok ((mapInsert p.2 nEDX (Register.EDX a b c d)).2, data_section)
      | some _ => Except.ok (p.2, data_section)
    | Register.EDX _ _ _ _, Register.EBX _ _ _ _ =>
      let p := mapInsert registers nEBX (Register.EBX 0 0 0 0)
      match p.1 with
      | none => Except.error ExecError.unwrapNone
      | some (Register.EBX a b c d) =>
        Except.ok ((mapInsert p.2 nEDX (Register.EDX a b c d)).2, data_section)
      | some _ => Except.ok (p.2, data_section)
    | Register.EDX _ _ _ _, Register.ECX _ _ _ _ =>
      let p := mapInsert registers nECX (Register.ECX 0 0 0 0)
      match p.1 with
      | none => Except.error ExecError.unwrapNone
      | some (Register.ECX a b c d) =>
        Except.ok ((mapInsert p.2 nEDX (Register.EDX a b c d)).2, data_section)
      | some _ => Except.ok (p.2, data_section)
    | _, _ => Except.ok (registers, data_section)
  | Operand.Register register, Operand.Memory address =>
    if mapContains data_section address || mapContains bss_section address then
      match register with
      | Register.AX _ _ =>
        match mapGet data_section address with
        | none => Except.error ExecError.unwrapNone
        | some data =>
          if data.get_value = 0 then Except.error ExecError.uninitAccess
          else
            match data with
            | Data.Byte v =>
              match mapGet registers nAX with
              | none => Except.error ExecError.unwrapNone
              | some (Register.AX al _) =>
                Except.ok ((mapInsert registers nAX (Register.AX al v)).2, data_section)
              | some _ => Except.ok (registers, data_section)
            | Data.Word v =>
              let bytes := toLeBytes16 v
              match mapGet registers nAX with
              | none => Except.error ExecError.unwrapNone
              | some (Register.AX _ _) =>
                Except.ok ((mapInsert registers nAX (Register.AX bytes.1 bytes.2)).2, data_section)
              | some _ => Except.ok (registers, data_section)
            | Data.Dword v =>
              let bytes := toLeBytes32 v
              match mapGet registers nAX with
              | none => Except.error ExecError.unwrapNone
              | some (Register.AX _ _) =>
                Except.ok ((mapInsert registers nAX (Register.AX bytes.1 bytes.2.1)).2, data_section)
              | some _ => Except.ok (registers, data_section)
      | Register.BX _ _ =>
        match mapGet data_section address with
        | none => Except.error ExecError.unwrapNone
        | some data =>
          if data.get_value = 0 then Except.error ExecError.uninitAccess
          else
            match data with
            | Data.Byte v =>
              match mapGet registers nBX with
              | none => Except.error ExecError.unwrapNone
              | some (Register.BX bl _) =>
                Except.ok ((mapInsert registers nBX (Register.BX bl v)).2, data_section)
              | some _ => Except.ok (registers, data_section)
            | Data.Word v =>
              let bytes := toLeBytes16 v
              match mapGet registers nBX with
              | none => Except.error ExecError.unwrapNone
              | some (Register.BX _ _) =>
                Except.ok ((mapInsert registers nBX (Register.BX bytes.1 bytes.2)).2, data_section)
              | some _ => Except.ok (registers, data_section)
            | Data.Dword v =>
              let bytes := toLeBytes32 v
              match mapGet registers nBX with
              | none => Except.error ExecError.unwrapNone
              | some (Register.BX _ _) =>
                Except.ok ((mapInsert registers nBX (Register.BX bytes.1 bytes.2.1)).2, data_section)
              | some _ => Except.ok (registers, data_section)
      | Register.CX _ _ =>
        match mapGet data_section address with
        | none => Except.error ExecError.unwrapNone
        | some data =>
          if data.get_value = 0 then Except.error ExecError.uninitAccess
          else
            match data with
            | Data.Byte v =>
              match mapGet registers nCX with
              | none => Except.error ExecError.unwrapNone
              | some (Register.CX cl _) =>
                Except.ok ((mapInsert registers nCX (Register.CX cl v)).2, data_section)
              | some _ => Except.ok (registers, data_section)
            | Data.Word v =>
              let bytes := toLeBytes16 v
              match mapGet registers nCX with
              | none => Except.error ExecError.unwrapNone
              | some (Register.CX _ _) =>
                Except.ok ((mapInsert registers nCX (Register.CX bytes.1 bytes.2)).2, data_section)
              | some _ => Except.ok (registers, data_section)
            | Data.Dword v =>
              let bytes := toLeBytes32 v
              match mapGet registers nCX with
              | none => Except.error ExecError.unwrapNone
              | some (Register.CX _ _) =>
                Except.ok ((mapInsert registers nCX (Register.CX bytes.1 bytes.2.1)).2, data_section)
              | some _ => Except.ok (registers, data_section)
      | Register.DX _ _ =>
        match mapGet data_section address with
        | none => Except.error ExecError.unwrapNone
        | some data =>
          if data.get_value = 0 then Except.error ExecError.uninitAccess
          else
            match data with
            | Data.Byte v =>
              match mapGet registers nDX with
              | none => Except.error ExecError.unwrapNone
              | some (Register.DX dl _) =>
                Except.ok ((mapInsert registers nDX (Register.DX dl v)).2, data_section)
              | some _ => Except.ok (registers, data_section)
            | Data.Word v =>
              let bytes := toLeBytes16 v
              match mapGet registers nDX with
              | none => Except.error ExecError.unwrapNone
              | some (Register.DX _ _) =>
                Except.ok ((mapInsert registers nDX (Register.DX bytes.1 bytes.2)).2, data_section)
              | some _ => Except.ok (registers, data_section)
            | Data.Dword v =>
              let bytes := toLeBytes32 v
              match mapGet registers nDX with
              | none => Except.error ExecError.unwrapNone
              | some (Register.DX _ _) =>
                Except.ok ((mapInsert registers nDX (Register.DX bytes.1 bytes.2.1)).2, data_section)
              | some _ => Except.ok (registers, data_section)
      | Register.EAX _ _ _ _ =>
        match mapGet data_section address with
        | none => Except.error ExecError.unwrapNone
        | some data =>
          if data.get_value = 0 then Except.error ExecError.uninitAccess
          else
            match data with
            | Data.Byte v =>
              match mapGet registers nEAX with
              | none => Except.error ExecError.unwrapNone
              | some (Register.EAX _ ah axl axh) =>
                Except.ok ((mapInsert registers nEAX (Register.EAX v ah axl axh)).2, data_section)
              | some _ => Except.ok (registers, data_section)
            | Data.Word v =>
              let bytes := toLeBytes16 v
              match mapGet registers nEAX with
              | none => Except.error ExecError.unwrapNone
              | some (Register.EAX _ _ axl axh) =>
                Except.ok ((mapInsert registers nEAX
                  (Register.EAX bytes.1 bytes.2 axl axh)).2, data_section)
              | some _ => Except.ok (registers, data_section)
            | Data.Dword v =>
              let bytes := toLeBytes32 v
              match mapGet registers nEAX with
              | none => Except.error ExecError.unwrapNone
              | some (Register.EAX _ _ _ _) =>
                Except.ok ((mapInsert registers nEAX
                  (Register.EAX bytes.1 bytes.2.1 bytes.2.2.1 bytes.2.2.2)).2, data_section)
              | some _ => Except.ok (registers, data_section)
      | Register.EBX _ _ _ _ =>
        match mapGet data_section address with
        | none => Except.error ExecError.unwrapNone
        | some data =>
          if data.get_value = 0 then Except.error ExecError.uninitAccess
          else
            match data with
            | Data.Byte v =>
              match mapGet registers nEBX with
              | none => Except.error ExecError.unwrapNone
              | some (Register.EBX _ bh bxl bxh) =>
                Except.ok ((mapInsert registers nEBX (Register.EBX v bh bxl bxh)).2, data_section)
              | some _ => Except.ok (registers, data_section)
            | Data.Word v =>
              let bytes := toLeBytes16 v
              match mapGet registers nEBX with
              | none => Except.error ExecError.unwrapNone
              | some (Register.EBX _ _ bxl bxh) =>
                Except.ok ((mapInsert registers nEBX
                  (Register.EBX bytes.1 bytes.2 bxl bxh)).2, data_section)
              | some _ => Except.ok (registers, data_section)
            | Data.Dword v =>
              let bytes := toLeBytes32 v
              match mapGet registers nEBX with
              | none => Except.error ExecError.unwrapNone
              | some (Register.EBX _ _ _ _) =>
                Except.ok ((mapInsert registers nEBX
                  (Register.EBX bytes.1 bytes.2.1 bytes.2.2.1 bytes.2.2.2)).2, data_section)
              | some _ => Except.ok (registers, data_section)
      | Register.ECX _ _ _ _ =>
        match mapGet data_section address with
        | none => Except.error ExecError.unwrapNone
        | some data =>
          if data.get_value = 0 then Except.error ExecError.uninitAccess
          else
            match data with
            | Data.Byte v =>
              match mapGet registers nECX with
              | none => Except.error ExecError.unwrapNone
              | some (Register.ECX _ ch cxl cxh) =>
                Except.ok ((mapInsert registers nECX (Register.ECX v ch cxl cxh)).2, data_section)
              | some _ => Except.ok (registers, data_section)
            | Data.Word v =>
              let bytes := toLeBytes16 v
              match mapGet registers nECX with
              | none => Except.error ExecError.unwrapNone
              | some (Register.ECX _ _ cxl cxh) =>
                Except.ok ((mapInsert registers nECX
                  (Register.ECX bytes.1 bytes.2 cxl cxh)).2, data_section)
              | some _ => Except.ok (registers, data_section)
            | Data.Dword v =>
              let bytes := toLeBytes32 v
              match mapGet registers nECX with
              | none => Except.error ExecError.unwrapNone
              | some (Register.ECX _ _ _ _) =>
                Except.ok ((mapInsert registers nECX
                  (Register.ECX bytes.1 bytes.2.1 bytes.2.2.1 bytes.2.2.2)).2, data_section)
              | some _ => Except.ok (registers, data_section)
      | Register.EDX _ _ _ _ =>
        match mapGet data_section address with
        | none => Except.error ExecError.unwrapNone
        | some data =>
          if data.get_value = 0 then Except.error ExecError.uninitAccess
          else
            match data with
            | Data.Byte v =>
              match mapGet registers nEDX with
              | none => Except.error ExecError.unwrapNone
              | some (Register.EDX _ dh dxl dxh) =>
                Except.ok ((mapInsert registers nEDX (Register.EDX v dh dxl dxh)).2, data_section)
              | some _ => Except.ok (registers, data_section)
            | Data.Word v =>
              let bytes := toLeBytes16 v
              match mapGet registers nEDX with
              | none => Except.error ExecError.unwrapNone
              | some (Register.EDX _ _ dxl dxh) =>
                Except.ok ((mapInsert registers nEDX
                  (Register.EDX bytes.1 bytes.2 dxl dxh)).2, data_section)
              | some _ => Except.ok (registers, data_section)
            | Data.Dword v =>
              let bytes := toLeBytes32 v
              match mapGet registers nEDX with
              | none => Except.error ExecError.unwrapNone
              | some (Register.EDX _ _ _ _) =>
                Except.ok ((mapInsert registers nEDX
                  (Register.EDX bytes.1 bytes.2.1 bytes.2.2.1 bytes.2.2.2)).2, data_section)
              | some _ => Except.ok (registers, data_section)
    else Except.error ExecError.undeclaredAccess
  | Operand.Register register, Operand.Immediate value =>
    match register with
    | Register.AX _ _ =>
      match value with
      | Data.Byte data =>
        match mapGet registers nAX with
        | none => Except.error ExecError.unwrapNone
        | some (Register.AX _ ah) =>
          Except.ok ((mapInsert registers nAX (Register.AX data ah)).2, data_section)
        | some _ => Except.ok (registers, data_section)
      | Data.Word data =>
        let bytes := toLeBytes16 data
        match mapGet registers nAX with
        | none => Except.error ExecError.unwrapNone
        | some (Register.AX _ _) =>
          Except.ok ((mapInsert registers nAX (Register.AX bytes.1 bytes.2)).2, data_section)
        | some _ => Except.ok (registers, data_section)
      | Data.Dword data =>
        let bytes := toLeBytes32 data
        match mapGet registers nAX with
        | none => Except.error ExecError.unwrapNone
        | some (Register.AX _ _) =>
          Except.ok ((mapInsert registers nAX (Register.AX bytes.1 bytes.2.1)).2, data_section)
        | some _ => Except.ok (registers, data_section)
    | Register.BX _ _ =>
      match value with
      | Data.Byte data =>
        match mapGet registers nBX with
        | none => Except.error ExecError.unwrapNone
        | some (Register.BX _ bh) =>
          Except.ok ((mapInsert registers nBX (Register.BX data bh)).2, data_section)
        | some _ => Except.ok (registers, data_section)
      | Data.Word data =>
        let bytes := toLeBytes16 data
        match mapGet registers nBX with
        | none => Except.error ExecError.unwrapNone
        | some (Register.BX _ _) =>
          Except.ok ((mapInsert registers nBX (Register.BX bytes.1 bytes.2)).2, data_section)
        | some _ => Except.ok (registers, data_section)
      | Data.Dword data =>
        let bytes := toLeBytes32 data
        match mapGet registers nBX with
        | none => Except.error ExecError.unwrapNone
        | some (Register.BX _ _) =>
          Except.ok ((mapInsert registers nBX (Register.BX bytes.1 bytes.2.1)).2, data_section)
        | some _ => Except.ok (registers, data_section)
    | Register.CX _ _ =>
      match value with
      | Data.Byte data =>
        match mapGet registers nCX with
        | none => Except.error ExecError.unwrapNone
        | some (Register.CX _ ch) =>
          Except.ok ((mapInsert registers nCX (Register.CX data ch)).2, data_section)
        | some _ => Except.ok (registers, data_section)
      | Data.Word data =>
        let bytes := toLeBytes16 data
        match mapGet registers nCX with
        | none => Except.error ExecError.unwrapNone
        | some (Register.CX _ _) =>
          Except.ok ((mapInsert registers nCX (Register.CX bytes.1 bytes.2)).2, data_section)
        | some _ => Except.ok (registers, data_section)
      | Data.Dword data =>
        let bytes := toLeBytes32 data
        match mapGet registers nCX with
        | none => Except.error ExecError.unwrapNone
        | some (Register.CX _ _) =>
          Except.ok ((mapInsert registers nCX (Register.CX bytes.1 bytes.2.1)).2, data_section)
        | some _ => Except.ok (registers, data_section)
    | Register.DX _ _ =>
      match value with
      | Data.Byte data =>
        match mapGet registers nDX with
        | none => Except.error ExecError.unwrapNone
        | some (Register.DX _ dh) =>
          Except.ok ((mapInsert registers nDX (Register.DX data dh)).2, data_section)
        | some _ => Except.ok (registers, data_section)
      | Data.Word data =>
        let bytes := toLeBytes16 data
        match mapGet registers nDX with
        | none => Except.error ExecError.unwrapNone
        | some (Register.DX _ _) =>
          Except.ok ((mapInsert registers nDX (Register.DX bytes.1 bytes.2)).2, data_section)
        | some _ => Except.ok (registers, data_section)
      | Data.Dword data =>
        let bytes := toLeBytes32 data
        match mapGet registers nDX with
        | none => Except.error ExecError.unwrapNone
        | some (Register.DX _ _) =>
          Except.ok ((mapInsert registers nDX (Register.DX bytes.1 bytes.2.1)).2, data_section)
        | some _ => Except.ok (registers, data_section)
    | Register.EAX _ _ _ _ =>
      match value with
      | Data.Byte data =>
        match mapGet registers nEAX with
        | none => Except.error ExecError.unwrapNone
        | some (Register.EAX _ ah axl axh) =>
          Except.ok ((mapInsert registers nEAX (Register.EAX data ah axl axh)).2, data_section)
        | some _ => Except.ok (registers, data_section)
      | Data.Word data =>
        let bytes := toLeBytes16 data
        match mapGet registers nEAX with
        | none => Except.error ExecError.unwrapNone
        | some (Register.EAX _ _ axl axh) =>
          Except.ok ((mapInsert registers nEAX
            (Register.EAX bytes.1 bytes.2 axl axh)).2, data_section)
        | some _ => Except.ok (registers, data_section)
      | Data.Dword data =>
        let bytes := toLeBytes32 data
        match mapGet registers nEAX with
        | none => Except.error ExecError.unwrapNone
        | some (Register.EAX _ _ _ _) =>
          Except.ok ((mapInsert registers nEAX
            (Register.EAX bytes.1 bytes.2.1 bytes.2.2.1 bytes.2.2.2)).2, data_section)
        | some _ => Except.ok (registers, data_section)
    | Register.EBX _ _ _ _ =>
      match value with
      | Data.Byte data =>
        match mapGet registers nEBX with
        | none => Except.error ExecError.unwrapNone
        | some (Register.EBX _ bh bxl bxh) =>
          Except.ok ((mapInsert registers nEBX (Register.EBX data bh bxl bxh)).2, data_section)
        | some _ => Except.ok (registers, data_section)
      | Data.Word data =>
        let bytes := toLeBytes16 data
        match mapGet registers nEBX with
        | none => Except.error ExecError.unwrapNone
        | some (Register.EBX _ _ bxl bxh) =>
          Except.ok ((mapInsert registers nEBX
            (Register.EBX bytes.1 bytes.2 bxl bxh)).2, data_section)
        | some _ => Except.ok (registers, data_section)
      | Data.Dword data =>
        let bytes := toLeBytes32 data
        match mapGet registers nEBX with
        | none => Except.error ExecError.unwrapNone
        | some (Register.EBX _ _ _ _) =>
          Except.ok ((mapInsert registers nEBX
            (Register.EBX bytes.1 bytes.2.1 bytes.2.2.1 bytes.2.2.2)).2, data_section)
        | some _ => Except.ok (registers, data_section)
    | Register.ECX _ _ _ _ =>
      match value with
      | Data.Byte data =>
        match mapGet registers nECX with
        | none => Except.error ExecError.unwrapNone
        | some (Register.ECX _ ch cxl cxh) =>
          Except.ok ((mapInsert registers nECX (Register.ECX data ch cxl cxh)).2, data_section)
        | some _ => Except.ok (registers, data_section)
      | Data.Word data =>
        let bytes := toLeBytes16 data
        match mapGet registers nECX with
        | none => Except.error ExecError.unwrapNone
        | some (Register.ECX _ _ cxl cxh) =>
          Except.ok ((mapInsert registers nECX
            (Register.ECX bytes.1 bytes.2 cxl cxh)).2, data_section)
        | some _ => Except.ok (registers, data_section)
      | Data.Dword data =>
        let bytes := toLeBytes32 data
        match mapGet registers nECX with
        | none => Except.error ExecError.unwrapNone
        | some (Register.ECX _ _ _ _) =>
          Except.ok ((mapInsert registers nECX
            (Register.ECX bytes.1 bytes.2.1 bytes.2.2.1 bytes.2.2.2)).2, data_section)
        | some _ => Except.ok (registers, data_section)
    | Register.EDX _ _ _ _ =>
      match value with
      | Data.Byte data =>
        match mapGet registers nEDX with
        | none => Except.error ExecError.unwrapNone
        | some (Register.EDX _ dh dxl dxh) =>
          Except.ok ((mapInsert registers nEDX (Register.EDX data dh dxl dxh)).2, data_section)
        | some _ => Except.ok (registers, data_section)
      | Data.Word data =>
        let bytes := toLeBytes16 data
        match mapGet registers nEDX with
        | none => Except.error ExecError.unwrapNone
        | some (Register.EDX _ _ dxl dxh) =>
          Except.ok ((mapInsert registers nEDX
            (Register.EDX bytes.1 bytes.2 dxl dxh)).2, data_section)
        | some _ => Except.ok (registers, data_section)
      | Data.Dword data =>
        let bytes := toLeBytes32 data
        match mapGet registers nEDX with
        | none => Except.error ExecError.unwrapNone
        | some (Register.EDX _ _ _ _) =>
          Except.ok ((mapInsert registers nEDX
            (Register.EDX bytes.1 bytes.2.1 bytes.2.2.1 bytes.2.2.2)).2, data_section)
        | some _ => Except.ok (registers, data_section)
  | Operand.Memory address, Operand.Register register =>
    if mapContains data_section address || mapContains bss_section address then
      match register with
      | Register.AX _ _ =>
        match mapGet registers nAX with
        | none => Except.error ExecError.unwrapNone
        | some (Register.AX al ah) =>
          match mapGet data_section address with
          | none => Except.error ExecError.unwrapNone
          | some data =>
            if data.get_value = 0 then Except.error ExecError.uninitAccess
            else
              match data with
              | Data.Byte v =>
                Except.ok ((mapInsert registers nAX (Register.AX v ah)).2, data_section)
              | Data.Word v =>
                let bytes := toLeBytes16 v
                Except.ok ((mapInsert registers nAX (Register.AX bytes.1 bytes.2)).2, data_section)
              | Data.Dword v =>
                let bytes := toLeBytes32 v
                Except.ok ((mapInsert registers nAX
                  (Register.AX bytes.1 bytes.2.1)).2, data_section)
        | some _ => Except.ok (registers, data_section)
      | Register.BX _ _ =>
        match mapGet registers nBX with
        | none => Except.error ExecError.unwrapNone
        | some (Register.BX bl bh) =>
          match mapGet data_section address with
          | none => Except.error ExecError.unwrapNone
          | some data =>
            if data.get_value = 0 then Except.error ExecError.uninitAccess
            else
              match data with
              | Data.Byte v =>
                Except.ok ((mapInsert registers nBX (Register.BX v bh)).2, data_section)
              | Data.Word v =>
                let bytes := toLeBytes16 v
                Except.ok ((mapInsert registers nBX (Register.BX bytes.1 bytes.2)).2, data_section)
              | Data.Dword v =>
                let bytes := toLeBytes32 v
                Except.ok ((mapInsert registers nBX
                  (Register.BX bytes.1 bytes.2.1)).2, data_section)
        | some _ => Except.ok (registers, data_section)
      | Register.CX _ _ =>
        match mapGet registers nCX with
        | none => Except.error ExecError.unwrapNone
        | some (Register.CX cl ch) =>
          match mapGet data_section address with
          | none => Except.error ExecError.unwrapNone
          | some data =>
            if data.get_value = 0 then Except.error ExecError.uninitAccess
            else
              match data with
              | Data.Byte v =>
                Except.ok ((mapInsert registers nCX (Register.CX v ch)).2, data_section)
              | Data.Word v =>
                let bytes := toLeBytes16 v
                Except.ok ((mapInsert registers nCX (Register.CX bytes.1 bytes.2)).2, data_section)
              | Data.Dword v =>
                let bytes := toLeBytes32 v
                Except.ok ((mapInsert registers nCX
                  (Register.CX bytes.1 bytes.2.1)).2, data_section)
        | some _ => Except.ok (registers, data_section)
      | Register.DX _ _ =>
        match mapGet registers nDX with
        | none => Except.error ExecError.unwrapNone
        | some (Register.DX dl dh) =>
          match mapGet data_section address with
          | none => Except.error ExecError.unwrapNone
          | some data =>
            if data.get_value = 0 then Except.error ExecError.uninitAccess
            else
              match data with
              | Data.Byte v =>
                Except.ok ((mapInsert registers nDX (Register.DX v dh)).2, data_section)
              | Data.Word v =>
                let bytes := toLeBytes16 v
                Except.ok ((mapInsert registers nDX (Register.DX bytes.1 bytes.2)).2, data_section)
              | Data.Dword v =>
                let bytes := toLeBytes32 v
                Except.ok ((mapInsert registers nDX
                  (Register.DX bytes.1 bytes.2.1)).2, data_section)
        | some _ => Except.ok (registers, data_section)
      | Register.EAX _ _ _ _ =>
        match mapGet registers nEAX with
        | none => Except.error ExecError.unwrapNone
        | some (Register.EAX al ah axl axh) =>
          match mapGet data_section address with
          | none => Except.error ExecError.unwrapNone
          | some data =>
            if data.get_value = 0 then Except.error ExecError.uninitAccess
            else
              match data with
              | Data.Byte v =>
                Except.ok ((mapInsert registers nEAX (Register.EAX v ah axl axh)).2, data_section)
              | Data.Word v =>
                let bytes := toLeBytes16 v
                Except.ok ((mapInsert registers nEAX
                  (Register.EAX bytes.1 bytes.2 axl axh)).2, data_section)
              | Data.Dword v =>
                let bytes := toLeBytes32 v
                Except.ok ((mapInsert registers nEAX
                  (Register.EAX bytes.1 bytes.2.1 bytes.2.2.1 bytes.2.2.2)).2, data_section)
        | some _ => Except.ok (registers, data_section)
      | Register.EBX _ _ _ _ =>
        match mapGet registers nEBX with
        | none => Except.error ExecError.unwrapNone
        | some (Register.EBX bl bh bxl bxh) =>
          match mapGet data_section address with
          | none => Except.error ExecError.unwrapNone
          | some data =>
            if data.get_value = 0 then Except.error ExecError.uninitAccess
            else
              match data with
              | Data.Byte v =>
                Except.ok ((mapInsert registers nEBX (Register.EBX v bh bxl bxh)).2, data_section)
              | Data.Word v =>
                let bytes := toLeBytes16 v
                Except.ok ((mapInsert registers nEBX
                  (Register.EBX bytes.1 bytes.2 bxl bxh)).2, data_section)
              | Data.Dword v =>
                let bytes := toLeBytes32 v
                Except.ok ((mapInsert registers nEBX
                  (Register.EBX bytes.1 bytes.2.1 bytes.2.2.1 bytes.2.2.2)).2, data_section)
        | some _ => Except.ok (registers, data_section)
      | Register.ECX _ _ _ _ =>
        match mapGet registers nECX with
        | none => Except.error ExecError.unwrapNone
        | some (Register.ECX cl ch cxl cxh) =>
          match mapGet data_section address with
          | none => Except.error ExecError.unwrapNone
          | some data =>
            if data.get_value = 0 then Except.error ExecError.uninitAccess
            else
              match data with
              | Data.Byte v =>
                Except.ok ((mapInsert registers nECX (Register.ECX v ch cxl cxh)).2, data_section)
              | Data.Word v =>
                let bytes := toLeBytes16 v
                Except.ok ((mapInsert registers nECX
                  (Register.ECX bytes.1 bytes.2 cxl cxh)).2, data_section)
              | Data.Dword v =>
                let bytes := toLeBytes32 v
                Except.ok ((mapInsert registers nECX
                  (Register.ECX bytes.1 bytes.2.1 bytes.2.2.1 bytes.2.2.2)).2, data_section)
        | some _ => Except.ok (registers, data_section)
      | Register.EDX _ _ _ _ =>
        match mapGet registers nEDX with
        | none => Except.error ExecError.unwrapNone
        | some (Register.EDX dl dh dxl dxh) =>
          match mapGet data_section address with
          | none => Except.error ExecError.unwrapNone
          | some data =>
            if data.get_value = 0 then Except.error ExecError.uninitAccess
            else
              match data with
              | Data.Byte v =>
                Except.ok ((mapInsert registers nEDX (Register.EDX v dh dxl dxh)).2, data_section)
              | Data.Word v =>
                let bytes := toLeBytes16 v
                Except.ok ((mapInsert registers nEDX
                  (Register.EDX bytes.1 bytes.2 dxl dxh)).2, data_section)
              | Data.Dword v =>
                let bytes := toLeBytes32 v
                Except.ok ((mapInsert registers nEDX
                  (Register.EDX bytes.1 bytes.2.1 bytes.2.2.1 bytes.2.2.2)).2, data_section)
        | some _ => Except.ok (registers, data_section)
    else Except.error ExecError.undeclaredAccess
  | Operand.Memory address, Operand.Immediate value =>
    if mapContains data_section address || mapContains bss_section address then
      match value with
      | Data.Byte data =>
        match mapGet data_section address with
        | none => Except.ok (registers, data_section)
        | some (Data.Byte _) =>
          Except.ok (registers, (mapInsert data_section address (Data.Byte data)).2)
        | some (Data.Word _) =>
          Except.ok (registers, (mapInsert data_section address (Data.Word data)).2)
        | some (Data.Dword _) =>
          Except.ok (registers, (mapInsert data_section address (Data.Dword data)).2)
      | Data.Word data =>
        match mapGet data_section address with
        | none => Except.ok (registers, data_section)
        | some (Data.Byte _) =>
          Except.ok (registers, (mapInsert data_section address (Data.Byte (data % 256))).2)
        | some (Data.Word _) =>
          Except.ok (registers, (mapInsert data_section address (Data.Word data)).2)
        | some (Data.Dword _) =>
          Except.ok (registers, (mapInsert data_section address (Data.Dword data)).2)
      | Data.Dword data =>
        match mapGet data_section address with
        | none => Except.ok (registers, data_section)
        | some (Data.Byte _) =>
          Except.ok (registers, (mapInsert data_section address (Data.Byte (data % 256))).2)
        | some (Data.Word _) =>
          Except.ok (registers, (mapInsert data_section address (Data.Word (data % 65536))).2)
        | some (Data.Dword _) =>
          Except.ok (registers, (mapInsert data_section address (Data.Dword data)).2)
    else Except.error ExecError.undeclaredAccess
  | _, _ => Except.ok (registers, data_section)

/-- CPU::new: the eight general-purpose registers zeroed, the supplied
program as memory, empty stack, program counter 0, all flags cleared. -/
def CPU.new (program : Program) : CPU :=
  { registers :=
      [(nAX, Register.AX 0 0),
       (nBX, Register.BX 0 0),
       (nCX, Register.CX 0 0),
       (nDX, Register.DX 0 0),
       (nEAX, Register.EAX 0 0 0 0),
       (nEBX, Register.EBX 0 0 0 0),
       (nECX, Register.ECX 0 0 0 0),
       (nEDX, Register.EDX 0 0 0 0)],
    memory := program,
    stack := [],
    program_counter := 0,
    flags := { carry := false, zero := false, interrupt := false,
               sign := false, overflow := false, parity := false } }

/-- CPU::mov: runs movCore on the state pieces mov touches and writes the
updated register file and data section back into the CPU. -/
def CPU.mov (c : CPU) (source destination : Operand) : Except ExecError CPU :=
  match movCore c.registers c.memory.data_section c.memory.bss_section source destination with
  | Except.error e => Except.error e
  | Except.ok rd =>
    Except.ok { c with registers := rd.1,
                       memory := { c.memory with data_section := rd.2 } }

/-- CPU::fetch: returns None when the counter has reached the instruction
count; otherwise increments the counter first and only then indexes the
text section, so the instruction returned is the one after the counter's
old value, and indexing text_section with the new counter can run past the
end of the list (a Rust index-out-of-bounds panic). -/
def CPU.fetch (c : CPU) : Except ExecError (Option Instruction × CPU) :=
  if c.program_counter ≥ c.memory.text_section.length then Except.ok (none, c)
  else
    let c2 := { c with program_counter := c.program_counter + 1 }
    match c2.memory.text_section.get? c2.program_counter with
    | some instruction => Except.ok (some instruction, c2)
    | none => Except.error ExecError.indexOutOfBounds

/-- The operand-kind dispatch shared by the IS::Add and IS::Sub arms of
CPU::execute: every arm of the source match has an empty body (three of
them only print a complaint), so each one leaves the CPU unchanged. -/
def addSubDispatch (c : CPU) (dest src : Operand) : Except ExecError CPU :=
  match dest, src with
  | Operand.Register _, Operand.Register _ => Except.ok c
  | Operand.Register _, Operand.Memory _ => Except.ok c
  | Operand.Register _, Operand.Immediate _ => Except.ok c
  | Operand.Memory _, Operand.Register _ => Except.ok c
  | Operand.Memory _, Operand.Memory _ => Except.ok c
  | Operand.Memory _, Operand.Immediate _ => Except.ok c
  | Operand.Immediate _, Operand.Register _ => Except.ok c
  | Operand.Immediate _, Operand.Memory _ => Except.ok c
  | Operand.Immediate _, Operand.Immediate _ => Except.ok c

/-- CPU::execute: fetch, then dispatch on the opcode.  Mov reads its two
operands with Vec::get (printing and returning on a shortfall); Add and Sub
index operands[0] and operands[1] directly (panicking on a shortfall) and
then do nothing in every operand-kind arm; every other opcode prints
"not implemented yet" and falls through. -/
def CPU.execute (c : CPU) : Except ExecError CPU :=
  match CPU.fetch c with
  | Except.error e => Except.error e
  | Except.ok (none, c2) => Except.ok c2
  | Except.ok (some instruction, c2) =>
    match instruction.opcode with
    | IS.Mov =>
      match instruction.operands.get? 0, instruction.operands.get? 1 with
      | some destination, some source => CPU.mov c2 source destination
      | _, _ => Except.ok c2
    | IS.Add =>
      match instruction.operands.get? 0, instruction.operands.get? 1 with
      | some dest, some src => addSubDispatch c2 dest src
      | _, _ => Except.error ExecError.indexOutOfBounds
    | IS.Sub =>
      match instruction.operands.get? 0, instruction.operands.get? 1 with
      | some dest, some src => addSubDispatch c2 dest src
      | _, _ => Except.error ExecError.indexOutOfBounds
    | _ => Except.ok c2

/-- The loop body of CPU::run, with fuel to make the recursion structural;
run supplies enough fuel that the zero case is never reached, because each
iteration either breaks or increases the program counter. -/
def CPU.runAux : Nat → CPU → Except ExecError CPU
  | 0, c => Except.ok c
  | fuel + 1, c =>
    match CPU.execute c with
    | Except.error e => Except.error e
    | Except.ok c2 =>
      if c2.program_counter ≥ c2.memory.text_section.length then Except.ok c2
      else CPU.runAux fuel c2

/-- CPU::run: loop execute until the program counter reaches the
instruction count. -/
def CPU.run (c : CPU) : Except ExecError CPU :=
  CPU.runAux (c.memory.text_section.length + 1) c

def regNames : List String := [nAX, nBX, nCX, nDX, nEAX, nEBX, nECX, nEDX]

/-- Does a register value's variant match the register-file key it is
stored under? -/
def variantMatches (k : String) (r : Register) : Bool :=
  match r with
  | Register.AX _ _ => k == nAX
  | Register.BX _ _ => k == nBX
  | Register.CX _ _ => k == nCX
  | Register.DX _ _ => k == nDX
  | Register.EAX _ _ _ _ => k == nEAX
  | Register.EBX _ _ _ _ => k == nEBX
  | Register.ECX _ _ _ _ => k == nECX
  | Register.EDX _ _ _ _ => k == nEDX

/-- The register-file invariant of claim C9: the key set is exactly the
eight register names, and every key holds a value of the matching
variant. -/
def registerFileInvariant (regs : RegisterFile) : Bool :=
  regNames.all (fun n =>
    match mapGet regs n with
    | some r => variantMatches n r
    | none => false)
  && regs.all (fun p => regNames.contains p.1)

/-- Replace every register operand's lane bytes by zero, keeping its
variant: two operands are "identical except for the embedded bytes"
exactly when their erasures are equal. -/
def eraseReg : Register → Register
  | Register.AX _ _ => Register.AX 0 0
  | Register.BX _ _ => Register.BX 0 0
  | Register.CX _ _ => Register.CX 0 0
  | Register.DX _ _ => Register.DX 0 0
  | Register.EAX _ _ _ _ => Register.EAX 0 0 0 0
  | Register.EBX _ _ _ _ => Register.EBX 0 0 0 0
  | Register.ECX _ _ _ _ => Register.ECX 0 0 0 0
  | Register.EDX _ _ _ _ => Register.EDX 0 0 0 0

def eraseOp : Operand → Operand
  | Operand.Register r => Operand.Register (eraseReg r)
  | Operand.Memory a => Operand.Memory a
  | Operand.Immediate d => Operand.Immediate d

def eraseInstr (i : Instruction) : Instruction :=
  { opcode := i.opcode, operands := i.operands.map eraseOp }

/-- Operand equivalence as used by claim C10: register operands are related
when the code's PartialEq (regEq) holds, i.e. when they are the same
variant regardless of embedded bytes; other operands must be equal. -/
def opEquiv : Operand → Operand → Prop
  | Operand.Register r1, Operand.Register r2 => regEq r1 r2 = true
  | Operand.Memory a1, Operand.Memory a2 => a1 = a2
  | Operand.Immediate d1, Operand.Immediate d2 => d1 = d2
  | _, _ => False

def instrEquiv (i1 i2 : Instruction) : Prop :=
  i1.opcode = i2.opcode ∧ List.Forall₂ opEquiv i1.operands i2.operands

/-- Two programs identical except for the lane bytes carried inside their
register operands. -/
def programEquiv (p1 p2 : Program) : Prop :=
  p1.data_section = p2.data_section ∧ p1.bss_section = p2.bss_section ∧
    List.Forall₂ instrEquiv p1.text_section p2.text_section

/-- Two CPU states that agree on registers, data section, bss section,
stack, program counter and flags, and whose text sections are identical up
to the bytes embedded in register operands. -/
def stateEquiv (c1 c2 : CPU) : Prop :=
  c1.registers = c2.registers ∧
  c1.memory.data_section = c2.memory.data_section ∧
  c1.memory.bss_section = c2.memory.bss_section ∧
  c1.stack = c2.stack ∧
  c1.program_counter = c2.program_counter ∧
  c1.flags = c2.flags ∧
  c1.memory.text_section.map eraseInstr = c2.memory.text_section.map eraseInstr

/-- Execution results agree: same panic, or final states related by
stateEquiv (in particular equal registers, data memory, flags and program
counter). -/
def resEquiv : Except ExecError CPU → Except ExecError CPU → Prop
  | Except.error e1, Except.error e2 => e1 = e2
  | Except.ok c1, Except.ok c2 => stateEquiv c1 c2
  | _, _ => False

def progEmpty : Program := { data_section := [], bss_section := [], text_section := [] }

def lblA : String := "a"
def lblB : String := "b"
def lblX : String := "x"
def lblW : String := "w"
def lblResult : String := "result"

/-- A CPU with the given registers and an otherwise empty, freshly loaded
program: used to set up concrete execution scenarios. -/
def cpuWith (regs : RegisterFile) (p : Program) : CPU :=
  { registers := regs, memory := p, stack := [], program_counter := 0,
    flags := { carry := false, zero := false, interrupt := false,
               sign := false, overflow := false, parity := false } }

def c1i0 : Instruction :=
  { opcode := IS.Mov,
    operands := [Operand.Register (Register.AX 0 0), Operand.Immediate (Data.Byte 1)] }

def c1i1 : Instruction :=
  { opcode := IS.Mov,
    operands := [Operand.Register (Register.BX 0 0), Operand.Immediate (Data.Byte 2)] }

def c1cpuTwo : CPU := CPU.new { data_section := [], bss_section := [], text_section := [c1i0, c1i1] }

def c1cpuOne : CPU := CPU.new { data_section := [], bss_section := [], text_section := [c1i0] }

def c2cpu : CPU :=
  cpuWith
    [(nAX, Register.AX 7 0),
     (nBX, Register.BX 0 0),
     (nCX, Register.CX 0 0),
     (nDX, Register.DX 0 0),
     (nEAX, Register.EAX 0 0 0 0),
     (nEBX, Register.EBX 0 0 0 0),
     (nECX, Register.ECX 0 0 0 0),
     (nEDX, Register.EDX 0 0 0 0)]
    { data_section := [(lblX, Data.Word 5)], bss_section := [], text_section := [] }

def c3pad : Instruction :=
  { opcode := IS.Mov,
    operands := [Operand.Register (Register.CX 0 0), Operand.Immediate (Data.Byte 1)] }

def c3addInstr : Instruction :=
  { opcode := IS.Add,
    operands := [Operand.Register (Register.EAX 0 0 0 0), Operand.Immediate (Data.Dword 1)] }

def c3subInstr : Instruction :=
  { opcode := IS.Sub,
    operands := [Operand.Register (Register.EAX 0 0 0 0), Operand.Immediate (Data.Dword 1)] }

def c3addCpu : CPU :=
  cpuWith
    [(nAX, Register.AX 0 0),
     (nBX, Register.BX 0 0),
     (nCX, Register.CX 0 0),
     (nDX, Register.DX 0 0),
     (nEAX, Register.EAX 255 255 255 255),
     (nEBX, Register.EBX 0 0 0 0),
     (nECX, Register.ECX 0 0 0 0),
     (nEDX, Register.EDX 0 0 0 0)]
    { data_section := [], bss_section := [], text_section := [c3pad, c3addInstr] }

def c3subCpu : CPU :=
  CPU.new { data_section := [], bss_section := [], text_section := [c3pad, c3subInstr] }

def c4cpu : CPU :=
  cpuWith
    [(nAX, Register.AX 7 1),
     (nBX, Register.BX 0 0),
     (nCX, Register.CX 0 0),
     (nDX, Register.DX 0 0),
     (nEAX, Register.EAX 0 0 0 0),
     (nEBX, Register.EBX 0 0 0 0),
     (nECX, Register.ECX 0 0 0 0),
     (nEDX, Register.EDX 0 0 0 0)]
    progEmpty

def c5cpu : CPU :=
  cpuWith
    [(nAX, Register.AX 0 0),
     (nBX, Register.BX 0 0),
     (nCX, Register.CX 0 0),
     (nDX, Register.DX 0 0),
     (nEAX, Register.EAX 1 2 3 4),
     (nEBX, Register.EBX 0 0 0 0),
     (nECX, Register.ECX 0 0 0 0),
     (nEDX, Register.EDX 0 0 0 0)]
    progEmpty

def c5cpuB : CPU :=
  cpuWith
    [(nAX, Register.AX 0 0),
     (nBX, Register.BX 9 9),
     (nCX, Register.CX 0 0),
     (nDX, Register.DX 0 0),
     (nEAX, Register.EAX 0 0 0 0),
     (nEBX, Register.EBX 0 0 0 0),
     (nECX, Register.ECX 0 0 0 0),
     (nEDX, Register.EDX 0 0 0 0)]
    progEmpty

def c6cpu : CPU :=
  CPU.new { data_section := [], bss_section := [(lblResult, Data.Word 0)], text_section := [] }

def c7cpu : CPU := CPU.new progEmpty

def c8mulInstr : Instruction := { opcode := IS.Mul, operands := [] }

def c8movInstr : Instruction :=
  { opcode := IS.Mov,
    operands := [Operand.Register (Register.BX 0 0), Operand.Immediate (Data.Byte 9)] }

def c8cpu : CPU :=
  CPU.new { data_section := [], bss_section := [],
            text_section := [c3pad, c8mulInstr, c8movInstr] }

def c9cpu : CPU := CPU.new progEmpty

def c10progA : Program :=
  { data_section := [], bss_section := [],
    text_section :=
      [{ opcode := IS.Mov,
         operands := [Operand.Register (Register.BX 0 0), Operand.Register (Register.AX 0 0)] }] }

def c10progB : Program :=
  { data_section := [], bss_section := [],
    text_section :=
      [{ opcode := IS.Mov,
         operands := [Operand.Register (Register.BX 5 6), Operand.Register (Register.AX 7 8)] }] }

/-- The code's PartialEq on registers holds exactly when the two values
have the same variant, i.e. equal byte-erasures. -/
theorem regEq_iff_eraseReg (r1 r2 : Register) :
    regEq r1 r2 = true ↔ eraseReg r1 = eraseReg r2 := by
  cases r1 <;> cases r2 <;> simp [regEq, eraseReg]

theorem opEquiv_iff (o1 o2 : Operand) : opEquiv o1 o2 ↔ eraseOp o1 = eraseOp o2 := by
  cases o1 <;> cases o2 <;> simp [opEquiv, eraseOp, regEq_iff_eraseReg]

theorem forall₂_iff_map {α β : Type} (R : α → α → Prop) (f : α → β)
    (hRf : ∀ a b, R a b ↔ f a = f b) :
    ∀ l1 l2 : List α, List.Forall₂ R l1 l2 ↔ l1.map f = l2.map f := by
  intro l1
  induction l1 with
  | nil =>
    intro l2
    cases l2 <;> simp [List.forall₂_nil_left_iff]
  | cons a l ih =>
    intro l2
    cases l2 with
    | nil => simp [List.forall₂_nil_right_iff]
    | cons b m => simp [List.forall₂_cons, hRf, ih]

theorem instrEquiv_iff (i1 i2 : Instruction) :
    instrEquiv i1 i2 ↔ eraseInstr i1 = eraseInstr i2 := by
  cases i1 with
  | mk o1 ops1 =>
    cases i2 with
    | mk o2 ops2 =>
      simp [instrEquiv, eraseInstr, Instruction.mk.injEq,
        forall₂_iff_map opEquiv eraseOp opEquiv_iff]

/-- movCore never looks at the byte lanes embedded in a Register operand:
erasing them does not change the result. -/
theorem movCore_erase (registers : RegisterFile) (data_section bss_section : List (String × Data))
    (s t : Operand) :
    movCore registers data_section bss_section (eraseOp s) (eraseOp t) =
      movCore registers data_section bss_section s t := by
  cases s with
  | Register rs =>
    cases t with
    | Register rt => cases rs <;> cases rt <;> rfl
    | Memory a => cases rs <;> rfl
    | Immediate v => cases rs <;> rfl
  | Memory a =>
    cases t with
    | Register rt => cases rt <;> rfl
    | Memory b => rfl
    | Immediate v => rfl
  | Immediate v =>
    cases t with
    | Register rt => cases rt <;> rfl
    | Memory b => rfl
    | Immediate w => rfl

theorem mov_erase (c : CPU) (s t : Operand) :
    CPU.mov c (eraseOp s) (eraseOp t) = CPU.mov c s t := by
  unfold CPU.mov
  rw [movCore_erase]

/-- mov only reads and writes the registers, data section and bss section;
on stateEquiv inputs it produces the same panic or stateEquiv outputs. -/
theorem mov_congr (c1 c2 : CPU) (h : stateEquiv c1 c2) (s d : Operand) :
    resEquiv (CPU.mov c1 s d) (CPU.mov c2 s d) := by
  obtain ⟨hr, hd, hb, hs, hp, hf, ht⟩ := h
  unfold CPU.mov
  rw [hr, hd, hb]
  cases hm : movCore c2.registers c2.memory.data_section c2.memory.bss_section s d with
  | error e => simp [resEquiv]
  | ok rd => simp [resEquiv, stateEquiv, hb, hs, hp, hf, ht]

theorem addSubDispatch_ok (c : CPU) (d s : Operand) : addSubDispatch c d s = Except.ok c := by
  cases d <;> cases s <;> rfl

/-- One execute step on stateEquiv inputs: same panic, or stateEquiv
outputs. -/
theorem execute_congr (c1 c2 : CPU) (h : stateEquiv c1 c2) :
    resEquiv (CPU.execute c1) (CPU.execute c2) := by
  obtain ⟨hr, hd, hb, hs, hp, hf, ht⟩ := h
  have hlen : c1.memory.text_section.length = c2.memory.text_section.length := by
    have h2 := congrArg List.length ht
    simpa using h2
  unfold CPU.execute CPU.fetch
  rw [hp, hlen]
  by_cases hge : c2.program_counter ≥ c2.memory.text_section.length
  · simp only [hge, if_true]
    exact ⟨hr, hd, hb, hs, hp, hf, ht⟩
  · simp only [hge, if_false]
    have hget : (c1.memory.text_section.get? (c2.program_counter + 1)).map eraseInstr =
        (c2.memory.text_section.get? (c2.program_counter + 1)).map eraseInstr := by
      rw [← List.get?_map, ← List.get?_map, ht]
    cases h1 : c1.memory.text_section.get? (c2.program_counter + 1) with
    | none =>
      cases h2 : c2.memory.text_section.get? (c2.program_counter + 1) with
      | none => simp [resEquiv]
      | some i2 => rw [h1, h2] at hget; simp at hget
    | some i1 =>
      cases h2 : c2.memory.text_section.get? (c2.program_counter + 1) with
      | none => rw [h1, h2] at hget; simp at hget
      | some i2 =>
        rw [h1, h2] at hget
        simp only [Option.map_some', Option.some.injEq] at hget
        have hopc : i1.opcode = i2.opcode := by
          have hq := congrArg Instruction.opcode hget
          simpa [eraseInstr] using hq
        have hops : i1.operands.map eraseOp = i2.operands.map eraseOp := by
          have hq := congrArg Instruction.operands hget
          simpa [eraseInstr] using hq
        have hse : stateEquiv { c1 with program_counter := c2.program_counter + 1 }
            { c2 with program_counter := c2.program_counter + 1 } :=
          ⟨hr, hd, hb, hs, rfl, hf, ht⟩
        dsimp only
        rw [← hopc]
        have hget0 : (i1.operands.get? 0).map eraseOp = (i2.operands.get? 0).map eraseOp := by
          rw [← List.get?_map, ← List.get?_map, hops]
        have hget1 : (i1.operands.get? 1).map eraseOp = (i2.operands.get? 1).map eraseOp := by
          rw [← List.get?_map, ← List.get?_map, hops]
        cases hoc : i1.opcode <;>
          first
          | -- opcodes with no implemented arm: both sides succeed unchanged
            exact hse
          | -- Mov, Add, Sub: dispatch over the first two operands
            · cases ha1 : i1.operands.get? 0 with
              | none =>
                cases ha2 : i2.operands.get? 0 with
                | none =>
                  cases hb1 : i1.operands.get? 1 with
                  | none =>
                    cases hb2 : i2.operands.get? 1 with
                    | none => first | exact hse | simp [resEquiv]
                    | some s2 => rw [hb1, hb2] at hget1; simp at hget1
                  | some s1 =>
                    cases hb2 : i2.operands.get? 1 with
                    | none => rw [hb1, hb2] at hget1; simp at hget1
                    | some s2 => first | exact hse | simp [resEquiv]
                | some d2 => rw [ha1, ha2] at hget0; simp at hget0
              | some d1 =>
                cases ha2 : i2.operands.get? 0 with
                | none => rw [ha1, ha2] at hget0; simp at hget0
                | some d2 =>
                  rw [ha1, ha2] at hget0
                  simp only [Option.map_some', Option.some.injEq] at hget0
                  cases hb1 : i1.operands.get? 1 with
                  | none =>
                    cases hb2 : i2.operands.get? 1 with
                    | none => first | exact hse | simp [resEquiv]
                    | some s2 => rw [hb1, hb2] at hget1; simp at hget1
                  | some s1 =>
                    cases hb2 : i2.operands.get? 1 with
                    | none => rw [hb1, hb2] at hget1; simp at hget1
                    | some s2 =>
                      rw [hb1, hb2] at hget1
                      simp only [Option.map_some', Option.some.injEq] at hget1
                      dsimp only
                      first
                      | -- Mov: reduce both movs to their erased operands
                        · show resEquiv (CPU.mov _ s1 d1) (CPU.mov _ s2 d2)
                          rw [← mov_erase _ s1 d1, ← mov_erase _ s2 d2, hget0, hget1]
                          exact mov_congr _ _ hse _ _
                      | -- Add and Sub: every dispatch arm is a no-op
                        · show resEquiv (addSubDispatch _ d1 s1) (addSubDispatch _ d2 s2)
                          rw [addSubDispatch_ok, addSubDispatch_ok]
                          exact hse

/-- The run loop preserves the congruence step by step. -/
theorem runAux_congr : ∀ (fuel : Nat) (c1 c2 : CPU), stateEquiv c1 c2 →
    resEquiv (CPU.runAux fuel c1) (CPU.runAux fuel c2) := by
  intro fuel
  induction fuel with
  | zero => intro c1 c2 h; exact h
  | succ n ih =>
    intro c1 c2 h
    have hx := execute_congr c1 c2 h
    unfold CPU.runAux
    cases h1 : CPU.execute c1 with
    | error e1 =>
      cases h2 : CPU.execute c2 with
      | error e2 =>
        rw [h1, h2] at hx
        have he : e1 = e2 := hx
        rw [he]
        rfl
      | ok c2x => rw [h1, h2] at hx; exact absurd hx (by simp [resEquiv])
    | ok c1x =>
      cases h2 : CPU.execute c2 with
      | error e2 => rw [h1, h2] at hx; exact absurd hx (by simp [resEquiv])
      | ok c2x =>
        rw [h1, h2] at hx
        have hx' : stateEquiv c1x c2x := hx
        obtain ⟨hr, hd, hb, hs, hp, hf, ht⟩ := hx'
        have hlen : c1x.memory.text_section.length = c2x.memory.text_section.length := by
          have hq := congrArg List.length ht
          simpa using hq
        dsimp only
        rw [hp, hlen]
        by_cases hge : c2x.program_counter ≥ c2x.memory.text_section.length
        · simp only [hge, if_true]
          exact hx
        · simp only [hge, if_false]
          exact ih c1x c2x hx

/-- C1: refuted on the code.  fetch increments the program counter before
indexing the text section, so from a fresh CPU the first fetch returns the
instruction at index 1 (instruction 0 is never executed), and on a
one-instruction program the loop indexes text_section[1], an out-of-bounds
access, instead of halting cleanly when the counter reaches the instruction
count. -/
theorem c1_fetch_skips_first_and_run_goes_out_of_bounds :
    CPU.fetch c1cpuTwo = Except.ok (some c1i1, { c1cpuTwo with program_counter := 1 }) ∧
    CPU.run c1cpuOne = Except.error ExecError.indexOutOfBounds :=
  ⟨rfl, rfl⟩

/-- C2: refuted on the code.  With data label x holding Word 5 and AX
holding 7, executing Mov [x], AX leaves x at Word 5 and overwrites AX with
5: the (Memory, Register) arm of mov reads memory into the register instead
of writing the register into memory. -/
theorem c2_memory_destination_mov_reads_instead_of_writing :
    (CPU.mov c2cpu (Operand.Register (Register.AX 0 0)) (Operand.Memory lblX)).toOption.map
        (fun c => (mapGet c.memory.data_section lblX, mapGet c.registers nAX)) =
      some (some (Data.Word 5), some (Register.AX 5 0)) :=
  rfl

/-- C3: refuted on the code.  With EAX holding 0xFFFFFFFF (lanes
255,255,255,255), executing Add EAX, 1 leaves every register and every flag
unchanged (only the program counter advances), and likewise Sub EAX, 1 with
EAX holding 0: the IS::Add and IS::Sub arms of execute have empty bodies,
so nothing wraps and the overflow flag is never set. -/
theorem c3_add_sub_arms_are_empty :
    CPU.execute c3addCpu = Except.ok { c3addCpu with program_counter := 1 } ∧
    CPU.execute c3subCpu = Except.ok { c3subCpu with program_counter := 1 } ∧
    mapGet c3addCpu.registers nEAX = some (Register.EAX 255 255 255 255) ∧
    c3addCpu.flags.overflow = false ∧
    mapGet c3subCpu.registers nEAX = some (Register.EAX 0 0 0 0) :=
  ⟨rfl, rfl, rfl, rfl, rfl⟩

/-- C4: refuted on the code.  Executing Mov BX, AX with AX holding lanes
(7,1) zeroes AX and stores the old value, still tagged as an AX variant,
under the BX key: a destructive transfer, not a copy. -/
theorem c4_register_mov_is_destructive_transfer :
    (CPU.mov c4cpu (Operand.Register (Register.AX 0 0)) (Operand.Register (Register.BX 0 0))).toOption.map
        (fun c => (mapGet c.registers nAX, mapGet c.registers nBX)) =
      some (some (Register.AX 0 0), some (Register.AX 7 1)) :=
  rfl

/-- C5: refuted on the code.  Executing Mov AX, EAX with EAX = (1,2,3,4)
sets AX to (1,2) but also zeroes EAX's low two lanes, leaving EAX =
(0,0,3,4) instead of untouched; and the analogous 16/32-bit pairs are also
broken: executing Mov EAX, BX with BX = (9,9) zeroes BX and writes the
value into ECX, leaving EAX untouched. -/
theorem c5_cross_width_mov_clobbers :
    (CPU.mov c5cpu (Operand.Register (Register.EAX 0 0 0 0)) (Operand.Register (Register.AX 0 0))).toOption.map
        (fun c => (mapGet c.registers nEAX, mapGet c.registers nAX)) =
      some (some (Register.EAX 0 0 3 4), some (Register.AX 1 2)) ∧
    (CPU.mov c5cpuB (Operand.Register (Register.BX 0 0)) (Operand.Register (Register.EAX 0 0 0 0))).toOption.map
        (fun c => (mapGet c.registers nEAX, mapGet c.registers nECX, mapGet c.registers nBX)) =
      some (some (Register.EAX 0 0 0 0), some (Register.ECX 9 9 0 0), some (Register.BX 0 0)) :=
  ⟨rfl, rfl⟩

/-- C6: refuted on the code.  With bss label result declared as Word 0,
executing Mov [result], 5 completes without a fatal error but leaves the
entire CPU state unchanged: the write goes through data_section.get_mut,
which returns None for a bss-only label, so the store is silently
dropped. -/
theorem c6_first_bss_write_is_silently_dropped :
    CPU.mov c6cpu (Operand.Immediate (Data.Word 5)) (Operand.Memory lblResult) =
      Except.ok c6cpu ∧
    mapGet c6cpu.memory.bss_section lblResult = some (Data.Word 0) :=
  ⟨rfl, rfl⟩

/-- C7 counterexample: a Mov with two Memory operands whose labels are
absent from both sections completes without any fatal error (the fallback
invalid-addressing-mode arm just returns), contradicting the claim that
every Mov with an undeclared Memory operand is fatal. -/
theorem c7_mem_to_mem_undeclared_is_not_fatal :
    mapGet c7cpu.memory.data_section lblA = none ∧
    mapGet c7cpu.memory.bss_section lblA = none ∧
    CPU.mov c7cpu (Operand.Memory lblB) (Operand.Memory lblA) = Except.ok c7cpu :=
  ⟨rfl, rfl, rfl⟩

/-- C7 amended: for a label absent from both the data and the bss section,
a Mov raises the fatal undeclared-memory-access error in the read direction
(register destination, memory source) and in the write direction (memory
destination with a register or an immediate source). -/
theorem c7_undeclared_label_is_fatal (c : CPU) (lbl : String) (r : Register) (d : Data)
    (h1 : mapContains c.memory.data_section lbl = false)
    (h2 : mapContains c.memory.bss_section lbl = false) :
    CPU.mov c (Operand.Memory lbl) (Operand.Register r) =
      Except.error ExecError.undeclaredAccess ∧
    CPU.mov c (Operand.Register r) (Operand.Memory lbl) =
      Except.error ExecError.undeclaredAccess ∧
    CPU.mov c (Operand.Immediate d) (Operand.Memory lbl) =
      Except.error ExecError.undeclaredAccess := by
  unfold CPU.mov
  refine ⟨?_, ?_, ?_⟩ <;>
    · show (match movCore c.registers c.memory.data_section c.memory.bss_section _ _ with
        | Except.error e => Except.error e
        | Except.ok rd =>
          Except.ok { c with registers := rd.1,
                             memory := { c.memory with data_section := rd.2 } }) = _
      cases r <;> simp [movCore, h1, h2]

/-- C7 witness: the amended statement at a concrete CPU and label. -/
theorem c7_undeclared_label_is_fatal_witness :
    mapContains c7cpu.memory.data_section lblX = false ∧
    mapContains c7cpu.memory.bss_section lblX = false ∧
    (CPU.mov c7cpu (Operand.Memory lblX) (Operand.Register (Register.AX 0 0)) =
        Except.error ExecError.undeclaredAccess ∧
      CPU.mov c7cpu (Operand.Register (Register.AX 0 0)) (Operand.Memory lblX) =
        Except.error ExecError.undeclaredAccess ∧
      CPU.mov c7cpu (Operand.Immediate (Data.Byte 1)) (Operand.Memory lblX) =
        Except.error ExecError.undeclaredAccess) :=
  ⟨rfl, rfl, c7_undeclared_label_is_fatal c7cpu lblX (Register.AX 0 0) (Data.Byte 1) rfl rfl⟩

/-- C8: refuted on the code.  Executing an unimplemented opcode (Mul) is
not fatal: the fallthrough arm of execute only prints, the state is
unchanged apart from the advanced program counter, and the following
instruction of the program still executes (the subsequent Mov writes 9 into
BX). -/
theorem c8_unimplemented_opcode_does_not_terminate :
    CPU.execute c8cpu = Except.ok { c8cpu with program_counter := 1 } ∧
    ((CPU.execute c8cpu).bind CPU.execute).toOption.map
        (fun c => (mapGet c.registers nBX, c.program_counter)) =
      some (some (Register.BX 9 0), 2) :=
  ⟨rfl, rfl⟩

/-- C9: refuted on the code.  The register-file invariant (key set is the
eight register names, each key holding its matching variant) holds at
construction but is broken by the very first register-to-register Mov:
after Mov AX, BX the AX key holds a BX-variant value, so later if-let
matches on AX silently fail. -/
theorem c9_register_file_invariant_not_preserved :
    registerFileInvariant c9cpu.registers = true ∧
    (CPU.mov c9cpu (Operand.Register (Register.BX 0 0)) (Operand.Register (Register.AX 0 0))).toOption.map
        (fun c => (registerFileInvariant c.registers, mapGet c.registers nAX)) =
      some (false, some (Register.BX 0 0)) :=
  ⟨rfl, rfl⟩

/-- C10: confirmed.  For two programs identical except for the byte values
embedded inside their Operand::Register operands (register operands related
by the code's PartialEq, i.e. equal variants), running each from a freshly
constructed CPU yields equivalent results: the same panic, or final states
with equal registers, data section, bss section, stack, program counter and
flags.  Only a register operand's variant ever selects behaviour. -/
theorem c10_register_operand_bytes_never_observed (p1 p2 : Program)
    (h : programEquiv p1 p2) :
    resEquiv (CPU.run (CPU.new p1)) (CPU.run (CPU.new p2)) := by
  obtain ⟨hd, hb, htf⟩ := h
  have ht : p1.text_section.map eraseInstr = p2.text_section.map eraseInstr :=
    (forall₂_iff_map instrEquiv eraseInstr instrEquiv_iff _ _).mp htf
  have hse : stateEquiv (CPU.new p1) (CPU.new p2) := ⟨rfl, hd, hb, rfl, rfl, rfl, ht⟩
  have hlen : (CPU.new p1).memory.text_section.length =
      (CPU.new p2).memory.text_section.length := by
    have hq := congrArg List.length ht
    simpa using hq
  unfold CPU.run
  rw [hlen]
  exact runAux_congr _ _ _ hse

/-- C10 witness: two one-instruction programs whose Mov carries different
bytes inside its register operands run to equivalent results. -/
theorem c10_register_operand_bytes_never_observed_witness :
    programEquiv c10progA c10progB ∧
    resEquiv (CPU.run (CPU.new c10progA)) (CPU.run (CPU.new c10progB)) :=
  ⟨⟨rfl, rfl,
      List.Forall₂.cons
        ⟨rfl, List.Forall₂.cons rfl (List.Forall₂.cons rfl List.Forall₂.nil)⟩
        List.Forall₂.nil⟩,
    c10_register_operand_bytes_never_observed c10progA c10progB
      ⟨rfl, rfl,
        List.Forall₂.cons
          ⟨rfl, List.Forall₂.cons rfl (List.Forall₂.cons rfl List.Forall₂.nil)⟩
          List.Forall₂.nil⟩⟩

end VCpu
